import Mathlib

/-!
Verification development for a repository containing two implementations of
the same console chatbot: a CrewAI flow (crewai_flow_chatbot_direct_call.py)
and a LangGraph graph (langgraph_chatbot.py). Each turn classifies the user
message as emotional or logical, routes to a persona responder, and keeps a
conversation history.

Modelling conventions:
- Network calls to the language model are oracle parameters: the classifier
  result and the responder reply are inputs to the step functions, and each
  outcome records whether the classifier endpoint was invoked.
- Console printing is modelled by boolean fields of step outcomes.
- Python str.lower and str.strip are modelled over lists of characters
  (pyLower, pyStrip); prompt texts are normalised in whitespace and
  punctuation, which no claim depends on.
-/

/-- A role-tagged chat message, modelling the Python dicts with keys
role and content used by both scripts. -/
structure Message where
  role : String
  content : String
deriving DecidableEq, Repr

/-- Python str whitespace test, restricted to the ASCII whitespace that
Lean chars classify. -/
def isSpace (c : Char) : Bool := c.isWhitespace

/-- Model of Python str.lower over a list of characters (ASCII lowering). -/
def pyLower (s : List Char) : List Char := s.map Char.toLower

/-- Model of Python str.strip: drop leading and trailing whitespace. -/
def pyStrip (s : List Char) : List Char :=
  ((s.dropWhile isSpace).reverse.dropWhile isSpace).reverse

/-- A JSON value, the possible result of Python json.loads. -/
inductive JsonVal where
  | str (s : String)
  | num (n : Int)
  | bool (b : Bool)
  | null
  | arr (elems : List JsonVal)
  | obj (fields : List (String × JsonVal))

/-- The raw result of the CrewAI classifier call, which the source comments
say can be a dict or a string. A string either parses as JSON (jsonText)
or raises json.JSONDecodeError (badText); a result that is neither dict nor
string makes json.loads raise TypeError (nonText). -/
inductive LLMResult where
  | dict (fields : List (String × JsonVal))
  | jsonText (v : JsonVal)
  | badText
  | nonText

/-- First binding of a key in a Python dict literal. -/
def lookupField (fields : List (String × JsonVal)) (key : String) : Option JsonVal :=
  (fields.find? (fun p => p.1 == key)).map (fun p => p.2)

/-- Pydantic validation of MessageClassifier(**data): the field message_type
must be present and be the string emotional or logical; any other shape
raises ValidationError (modelled as none). Extra fields are ignored, the
pydantic v2 default. -/
def validateClassifier (fields : List (String × JsonVal)) : Option String :=
  match lookupField fields "message_type" with
  | some (JsonVal.str s) => if s = "emotional" || s = "logical" then some s else none
  | _ => none

/-- The try-block of ChatbotFlow.classify_message: interpret the raw result
as a dict (directly, or through json.loads), then validate it; none models
any of json.JSONDecodeError, ValidationError or TypeError being raised. -/
def parseResult (result : LLMResult) : Option String :=
  match result with
  | LLMResult.dict fields => validateClassifier fields
  | LLMResult.jsonText (JsonVal.obj fields) => validateClassifier fields
  | LLMResult.jsonText _ => none
  | LLMResult.badText => none
  | LLMResult.nonText => none

/-- Configuration record for a chat-model client, holding exactly the
constructor arguments the two scripts pass; an unset field is none. -/
structure LLMConfig where
  model : Option String
  temperature : Option Int
  max_tokens : Option Nat
  timeout : Option Nat
  max_retries : Option Nat
  response_format : Bool
deriving DecidableEq, Repr

/-- The therapist persona system instruction shared by both scripts
(whitespace and punctuation normalised). -/
def therapistPrompt : String :=
  "You are a compassionate therapist. Focus on the emotional aspects of the users message. Show empathy, validate their feelings, and help them process their emotions. Ask thoughtful questions to help them explore their feelings more deeply. Avoid giving logical solutions unless explicitly asked."

/-- The logical persona system instruction shared by both scripts
(whitespace normalised). -/
def logicalPrompt : String :=
  "You are a purely logical assistant. Focus only on facts and information. Provide clear, concise answers based on logic and evidence. Do not address emotions or provide emotional support. Be direct and straightforward in your responses."

namespace Crewai

/-- The module-level responder client gemini_llm, built from the environment
value MODEL (GEMINI_MODEL). -/
def gemini_llm (GEMINI_MODEL : Option String) : LLMConfig :=
  { model := GEMINI_MODEL, temperature := some 0, max_tokens := some 4096,
    timeout := none, max_retries := none, response_format := false }

/-- The classifier client constructed inside classify_message: only the model
and a response_format are passed. -/
def classifier_llm (GEMINI_MODEL : Option String) : LLMConfig :=
  { model := GEMINI_MODEL, temperature := none, max_tokens := none,
    timeout := none, max_retries := none, response_format := true }

/-- The pydantic state model MessageState of the CrewAI flow. -/
structure MessageState where
  user_message : String := ""
  message_type : String := ""
  response : String := ""
  conversation_history : List Message := []
deriving DecidableEq, Repr

/-- The state of a freshly constructed ChatbotFlow. -/
def initialState : MessageState := {}

/-- Outcome of the classify_message step: the updated state, the value the
method returns, and whether the classifier endpoint was called. -/
structure ClassifyOutcome where
  state : MessageState
  retVal : String
  classifierCalled : Bool
deriving DecidableEq, Repr

/-- ChatbotFlow.classify_message: an empty user_message returns exit with no
model call; otherwise the classifier is called and the parsed label (or the
fallback logical) is stored in message_type and returned. -/
def classify_message (st : MessageState) (result : LLMResult) : ClassifyOutcome :=
  if st.user_message = "" then
    { state := st, retVal := "exit", classifierCalled := false }
  else
    let mt := (parseResult result).getD "logical"
    { state := { st with message_type := mt }, retVal := mt, classifierCalled := true }

/-- ChatbotFlow.route_message: the router over the value classify_message
returned. The source method reads no state and performs no IO beyond this
decision. -/
def route_message (message_type : String) : String :=
  if message_type = "exit" then "exit"
  else if message_type = "emotional" then "therapist"
  else "logical"

/-- Outcome of a responder step: the message list sent to the model, the
updated state, and the returned reply. -/
structure ResponderOutcome where
  sentMessages : List Message
  state : MessageState
  retVal : String
deriving DecidableEq, Repr

/-- ChatbotFlow.therapist_response: build system prompt plus history plus the
new user turn, call the model (reply is the oracle answer), then extend the
history with the user and assistant pair and store the reply. -/
def therapist_response (st : MessageState) (reply : String) : ResponderOutcome :=
  let messages := [Message.mk "system" therapistPrompt]
  let messages := messages ++ st.conversation_history
  let messages := messages ++ [Message.mk "user" st.user_message]
  let st' := { st with
    conversation_history := st.conversation_history ++
      [Message.mk "user" st.user_message, Message.mk "assistant" reply],
    response := reply }
  { sentMessages := messages, state := st', retVal := reply }

/-- ChatbotFlow.logical_response: same shape as therapist_response with the
logical persona prompt. -/
def logical_response (st : MessageState) (reply : String) : ResponderOutcome :=
  let messages := [Message.mk "system" logicalPrompt]
  let messages := messages ++ st.conversation_history
  let messages := messages ++ [Message.mk "user" st.user_message]
  let st' := { st with
    conversation_history := st.conversation_history ++
      [Message.mk "user" st.user_message, Message.mk "assistant" reply],
    response := reply }
  { sentMessages := messages, state := st', retVal := reply }

/-- Outcome of the handle_exit step: the state is untouched, goodbye is
returned, and Bye is printed. -/
structure ExitOutcome where
  state : MessageState
  retVal : String
  printedBye : Bool
deriving DecidableEq, Repr

/-- ChatbotFlow.handle_exit: prints Bye and returns goodbye. -/
def handle_exit (st : MessageState) : ExitOutcome :=
  { state := st, retVal := "goodbye", printedBye := true }

/-- Outcome of one flow.kickoff: final state, the value of the last executed
method, whether the classifier endpoint was called, and whether Bye was
printed. -/
structure KickoffOutcome where
  state : MessageState
  result : String
  classifierCalled : Bool
  printedBye : Bool
deriving DecidableEq, Repr

/-- One run of the flow: classify_message, then route_message dispatches to
exactly one of therapist_response, logical_response or handle_exit. -/
def kickoff (st : MessageState) (clsResult : LLMResult) (reply : String) : KickoffOutcome :=
  let c := classify_message st clsResult
  let branch := route_message c.retVal
  if branch = "therapist" then
    let r := therapist_response c.state reply
    { state := r.state, result := r.retVal,
      classifierCalled := c.classifierCalled, printedBye := false }
  else if branch = "logical" then
    let r := logical_response c.state reply
    { state := r.state, result := r.retVal,
      classifierCalled := c.classifierCalled, printedBye := false }
  else
    let e := handle_exit c.state
    { state := e.state, result := e.retVal,
      classifierCalled := c.classifierCalled, printedBye := e.printedBye }

/-- The exit-sentinel test of the CrewAI loop:
user_input.lower().strip() == "exit". -/
def isExitInput (input : String) : Bool :=
  pyStrip (pyLower input.data) == "exit".data

/-- Outcome of one iteration of run_chatbot: resulting flow state, whether
the loop broke, whether the classifier endpoint was called, and whether Bye
was printed. -/
structure StepOutcome where
  state : MessageState
  ended : Bool
  classifierCalled : Bool
  printedBye : Bool
deriving DecidableEq, Repr

/-- One iteration of the CrewAI run_chatbot loop: break on the exit sentinel
before any flow work; otherwise store the input in user_message, kick off the
flow, and break when message_type is exit or the kickoff result is the string
goodbye. -/
def loopStep (st : MessageState) (input : String) (clsResult : LLMResult)
    (reply : String) : StepOutcome :=
  if isExitInput input then
    { state := st, ended := true, classifierCalled := false, printedBye := false }
  else
    let st0 := { st with user_message := input }
    let k := kickoff st0 clsResult reply
    if k.state.message_type == "exit" || k.result == "goodbye" then
      { state := k.state, ended := true,
        classifierCalled := k.classifierCalled, printedBye := k.printedBye }
    else
      { state := k.state, ended := false,
        classifierCalled := k.classifierCalled, printedBye := k.printedBye }

/-- Script for one loop iteration: the console input and the two oracle
answers of the model. -/
structure TurnScript where
  input : String
  clsResult : LLMResult
  reply : String

/-- The CrewAI run_chatbot loop over a script of turns; none means the loop
broke before consuming the whole script. -/
def run_chatbot : MessageState → List TurnScript → Option MessageState
  | st, [] => some st
  | st, t :: ts =>
    let o := loopStep st t.input t.clsResult t.reply
    if o.ended then none else run_chatbot o.state ts

end Crewai

namespace Langgraph

/-- The module-level client llm of the LangGraph script. The parameter
records the environment value MODEL so configuration provenance can be
stated; the source hardcodes the identifier gemini-2.5-flash and passes
max_tokens=None and timeout=None. -/
def llm (MODEL : Option String) : LLMConfig :=
  { model := some "gemini-2.5-flash", temperature := some 0, max_tokens := none,
    timeout := none, max_retries := some 2, response_format := false }

/-- The pydantic schema MessageClassifier: with_structured_output parses the
classifier answer into this model, so a successful call carries exactly one
of the two labels. -/
inductive MessageClassifier where
  | emotional
  | logical
deriving DecidableEq, Repr

/-- The message_type field of a parsed MessageClassifier value. -/
def MessageClassifier.message_type : MessageClassifier → String
  | MessageClassifier.emotional => "emotional"
  | MessageClassifier.logical => "logical"

/-- The graph State TypedDict: the running message list and the label. -/
structure State where
  messages : List Message
  message_type : Option String
deriving DecidableEq, Repr

/-- The state built at the top of run_chatbot: empty conversation, no label. -/
def initialState : State := { messages := [], message_type := none }

/-- Python negative indexing state.messages[-1]; the source only evaluates it
on nonempty lists, so the default is never reached on reachable states. -/
def lastMessage (msgs : List Message) : Message :=
  msgs.getLast?.getD (Message.mk "" "")

/-- The classify_message node: invokes the structured-output classifier on
the last message (result is the oracle answer) and merges the label into the
state. The node has no guard, so the endpoint is called on every entry. -/
def classify_message (st : State) (result : MessageClassifier) : State :=
  { st with message_type := some result.message_type }

/-- The router node combined with the conditional edge: reads message_type
with default logical (state.get), sends emotional to the therapist branch and
everything else to the logical branch. A missing label and a label stored as
None both fall to the else branch, hence to logical. -/
def router (st : State) : String :=
  let message_type := st.message_type.getD "logical"
  if message_type = "emotional" then "therapist" else "logical"

/-- Outcome of an agent node: the message list sent to the model and the
partial state update (one assistant message) handed to the reducer. -/
structure AgentOutcome where
  sentMessages : List Message
  update : List Message
deriving DecidableEq, Repr

/-- The therapist_agent node: sends only the persona system instruction and
the content of the last message, and returns one assistant message. -/
def therapist_agent (st : State) (reply : String) : AgentOutcome :=
  let last_message := lastMessage st.messages
  { sentMessages := [Message.mk "system" therapistPrompt,
                     Message.mk "user" last_message.content],
    update := [Message.mk "assistant" reply] }

/-- The logical_agent node: same shape as therapist_agent with the logical
persona prompt. -/
def logical_agent (st : State) (reply : String) : AgentOutcome :=
  let last_message := lastMessage st.messages
  { sentMessages := [Message.mk "system" logicalPrompt,
                     Message.mk "user" last_message.content],
    update := [Message.mk "assistant" reply] }

/-- Outcome of one graph.invoke: the merged state, whether the classifier
endpoint was called, the branch taken, and the responder message list. -/
structure InvokeOutcome where
  state : State
  classifierCalled : Bool
  branch : String
  sentMessages : List Message
deriving DecidableEq, Repr

/-- One graph.invoke: START to classifier to router, then the conditional
edge dispatches to exactly one agent whose update the add-message reducer
appends to the message list. -/
def graphInvoke (st : State) (clsResult : MessageClassifier) (reply : String) :
    InvokeOutcome :=
  let st1 := classify_message st clsResult
  let branch := router st1
  if branch = "therapist" then
    let a := therapist_agent st1 reply
    { state := { st1 with messages := st1.messages ++ a.update },
      classifierCalled := true, branch := branch, sentMessages := a.sentMessages }
  else
    let a := logical_agent st1 reply
    { state := { st1 with messages := st1.messages ++ a.update },
      classifierCalled := true, branch := branch, sentMessages := a.sentMessages }

/-- The exit-sentinel test of the LangGraph loop:
user_input.strip().lower() == "exit". -/
def isExitInput (input : String) : Bool :=
  pyLower (pyStrip input.data) == "exit".data

/-- Outcome of one iteration of the LangGraph run_chatbot loop. -/
structure StepOutcome where
  state : State
  ended : Bool
  classifierCalled : Bool
  printedBye : Bool
deriving DecidableEq, Repr

/-- One iteration of the LangGraph run_chatbot loop: on the exit sentinel
print Bye and break; otherwise append the user message and invoke the graph.
There is no empty-input guard, so an empty message is processed like any
other. -/
def loopStep (st : State) (input : String) (clsResult : MessageClassifier)
    (reply : String) : StepOutcome :=
  if isExitInput input then
    { state := st, ended := true, classifierCalled := false, printedBye := true }
  else
    let st0 := { st with messages := st.messages ++ [Message.mk "user" input] }
    let g := graphInvoke st0 clsResult reply
    { state := g.state, ended := false,
      classifierCalled := g.classifierCalled, printedBye := false }

/-- Script for one loop iteration: the console input and the two oracle
answers of the model. -/
structure TurnScript where
  input : String
  clsResult : MessageClassifier
  reply : String

/-- The LangGraph run_chatbot loop over a script of turns; none means the
loop broke before consuming the whole script. -/
def run_chatbot : State → List TurnScript → Option State
  | st, [] => some st
  | st, t :: ts =>
    let o := loopStep st t.input t.clsResult t.reply
    if o.ended then none else run_chatbot o.state ts

end Langgraph

theorem isSpace_ofNat_shifted (n : Nat) (h1 : 65 ≤ n) (h2 : n ≤ 90) :
    isSpace (Char.ofNat (n + 32)) = false := by
  interval_cases n <;> decide

theorem isSpace_of_upper_range (c : Char) (h1 : 65 ≤ c.toNat) (h2 : c.toNat ≤ 90) :
    isSpace c = false := by
  have hs : c ≠ ' ' := by rintro rfl; exact absurd h1 (by decide)
  have ht : c ≠ '\t' := by rintro rfl; exact absurd h1 (by decide)
  have hr : c ≠ '\x0d' := by rintro rfl; exact absurd h1 (by decide)
  have hn : c ≠ '\n' := by rintro rfl; exact absurd h1 (by decide)
  simp [isSpace, Char.isWhitespace, hs, ht, hr, hn]

theorem isSpace_toLower (c : Char) : isSpace (Char.toLower c) = isSpace c := by
  rw [Char.toLower]
  split
  next h => rw [isSpace_ofNat_shifted c.toNat h.1 h.2, isSpace_of_upper_range c h.1 h.2]
  next h => rfl

theorem dropWhile_pyLower (s : List Char) :
    (pyLower s).dropWhile isSpace = pyLower (s.dropWhile isSpace) := by
  have hcomp : (isSpace ∘ Char.toLower) = isSpace := funext isSpace_toLower
  unfold pyLower
  rw [List.dropWhile_map, hcomp]

theorem pyLower_reverse (s : List Char) : pyLower s.reverse = (pyLower s).reverse := by
  unfold pyLower
  exact List.map_reverse Char.toLower s

theorem pyLower_pyStrip (s : List Char) : pyLower (pyStrip s) = pyStrip (pyLower s) := by
  unfold pyStrip
  rw [dropWhile_pyLower, ← pyLower_reverse, dropWhile_pyLower, ← pyLower_reverse]

/-- C10: the CrewAI sentinel test (lowercase, then strip, then compare with
exit) and the LangGraph sentinel test (strip, then lowercase, then compare
with exit) accept exactly the same set of console inputs. -/
theorem exit_sentinel_predicates_agree (input : String) :
    Crewai.isExitInput input = Langgraph.isExitInput input := by
  unfold Crewai.isExitInput Langgraph.isExitInput
  rw [pyLower_pyStrip]

/-- C3: the routers are pure functions whose whole decision tables are:
exit goes to the exit branch, emotional to the therapist branch, and
everything else (including logical) to the logical branch; no input selects
any branch outside the three. The LangGraph router has no exit row because
no termination signal ever reaches it; it maps emotional to therapist and
every other label (including a missing one) to logical. Purity is inherent
in the embedding: both routers are total functions of their argument alone. -/
theorem router_decision_table :
    (Crewai.route_message "exit" = "exit" ∧
      Crewai.route_message "emotional" = "therapist" ∧
      Crewai.route_message "logical" = "logical" ∧
      (∀ s : String, s ≠ "exit" → s ≠ "emotional" → Crewai.route_message s = "logical") ∧
      (∀ s : String, Crewai.route_message s = "exit" ∨ Crewai.route_message s = "therapist" ∨
        Crewai.route_message s = "logical")) ∧
    ((∀ st : Langgraph.State, st.message_type = some "emotional" →
        Langgraph.router st = "therapist") ∧
      (∀ st : Langgraph.State, st.message_type ≠ some "emotional" →
        Langgraph.router st = "logical") ∧
      (∀ st : Langgraph.State,
        Langgraph.router st = "therapist" ∨ Langgraph.router st = "logical")) := by
  refine ⟨⟨rfl, rfl, rfl, ?_, ?_⟩, ?_, ?_, ?_⟩
  · intro s h1 h2
    unfold Crewai.route_message
    rw [if_neg h1, if_neg h2]
  · intro s
    by_cases h1 : s = "exit"
    · exact Or.inl (by simp [Crewai.route_message, h1])
    · by_cases h2 : s = "emotional"
      · exact Or.inr (Or.inl (by simp [Crewai.route_message, h1, h2]))
      · exact Or.inr (Or.inr (by simp [Crewai.route_message, h1, h2]))
  · intro st h
    simp [Langgraph.router, h]
  · intro st h
    unfold Langgraph.router
    rcases hmt : st.message_type with _ | s
    · simp
    · have hs : s ≠ "emotional" := by
        rintro rfl
        exact h hmt
      simp [hs]
  · intro st
    unfold Langgraph.router
    by_cases h : st.message_type.getD "logical" = "emotional" <;> simp [h]

/-- Closed instance of the router decision table at a label outside the
enumeration. -/
theorem router_decision_table_witness :
    Crewai.route_message "banana" = "logical" :=
  router_decision_table.1.2.2.2.1 "banana" (by decide) (by decide)

theorem validateClassifier_mem (fields : List (String × JsonVal)) (lbl : String)
    (h : validateClassifier fields = some lbl) : lbl = "emotional" ∨ lbl = "logical" := by
  unfold validateClassifier at h
  rcases hf : lookupField fields "message_type" with _ | v <;> rw [hf] at h
  · exact absurd h (by simp)
  · cases v with
    | str s =>
      by_cases h1 : s = "emotional"
      · subst h1
        simp at h
        exact Or.inl h.symm
      · by_cases h2 : s = "logical"
        · subst h2
          simp at h
          exact Or.inr h.symm
        · simp [h1, h2] at h
    | num n => exact absurd h (by simp)
    | bool b => exact absurd h (by simp)
    | null => exact absurd h (by simp)
    | arr elems => exact absurd h (by simp)
    | obj fs => exact absurd h (by simp)

theorem parseResult_mem (result : LLMResult) (lbl : String)
    (h : parseResult result = some lbl) : lbl = "emotional" ∨ lbl = "logical" := by
  unfold parseResult at h
  cases result with
  | dict fields => exact validateClassifier_mem fields lbl h
  | jsonText v =>
    cases v with
    | obj fs => exact validateClassifier_mem fs lbl h
    | str s => exact absurd h (by simp)
    | num n => exact absurd h (by simp)
    | bool b => exact absurd h (by simp)
    | null => exact absurd h (by simp)
    | arr elems => exact absurd h (by simp)
  | badText => exact absurd h (by simp)
  | nonText => exact absurd h (by simp)

theorem parseResult_getD_mem (result : LLMResult) :
    (parseResult result).getD "logical" = "emotional" ∨
      (parseResult result).getD "logical" = "logical" := by
  rcases h : parseResult result with _ | lbl
  · exact Or.inr rfl
  · simpa using parseResult_mem result lbl h

/-- C2: on a nonempty user message the CrewAI classify step never raises:
whenever parsing or schema validation of the classifier answer fails (not a
dict, unparseable text, missing field, value outside the enumeration) the
stored label is exactly logical, whenever validation succeeds the stored
label equals the validated message_type, and in all cases the stored label
lies in the enumeration. The LangGraph router likewise falls back to the
logical branch label when message_type is absent. -/
theorem classifier_fail_closed :
    (∀ (st : Crewai.MessageState) (result : LLMResult), st.user_message ≠ "" →
      (parseResult result = none →
        (Crewai.classify_message st result).state.message_type = "logical") ∧
      (∀ lbl : String, parseResult result = some lbl →
        (Crewai.classify_message st result).state.message_type = lbl) ∧
      ((Crewai.classify_message st result).state.message_type = "emotional" ∨
        (Crewai.classify_message st result).state.message_type = "logical")) ∧
    (∀ st : Langgraph.State, st.message_type = none → Langgraph.router st = "logical") := by
  constructor
  · intro st result hne
    unfold Crewai.classify_message
    rw [if_neg hne]
    refine ⟨?_, ?_, ?_⟩
    · intro h
      simp [h]
    · intro lbl h
      simp [h]
    · simpa using parseResult_getD_mem result
  · intro st h
    simp [Langgraph.router, h]

/-- Closed instance of the fail-closed classifier at an unparseable answer. -/
theorem classifier_fail_closed_witness :
    (Crewai.classify_message { user_message := "hello" } LLMResult.badText).state.message_type
      = "logical" :=
  ((classifier_fail_closed.1 { user_message := "hello" } LLMResult.badText (by decide)).1) rfl

/-- C9: in the CrewAI flow, classify_message and handle_exit leave
conversation_history untouched (handle_exit leaves the whole state
untouched), route_message takes no state at all in the embedding because the
source method reads and writes none, and each responder appends exactly one
user entry followed by one assistant entry. -/
theorem crewai_frame_effects :
    (∀ (st : Crewai.MessageState) (result : LLMResult),
      (Crewai.classify_message st result).state.conversation_history =
        st.conversation_history) ∧
    (∀ st : Crewai.MessageState, (Crewai.handle_exit st).state = st) ∧
    (∀ (st : Crewai.MessageState) (reply : String),
      (Crewai.therapist_response st reply).state.conversation_history =
        st.conversation_history ++
          [Message.mk "user" st.user_message, Message.mk "assistant" reply] ∧
      (Crewai.logical_response st reply).state.conversation_history =
        st.conversation_history ++
          [Message.mk "user" st.user_message, Message.mk "assistant" reply]) := by
  refine ⟨?_, fun st => rfl, fun st reply => ⟨rfl, rfl⟩⟩
  intro st result
  unfold Crewai.classify_message
  split <;> rfl

/-- Example LangGraph state holding one completed turn of history plus the
new user message, used to exercise the agents on nonempty history. -/
def lgExampleState : Langgraph.State :=
  { messages := [Message.mk "user" "hi", Message.mk "assistant" "hello",
                 Message.mk "user" "I feel sad"],
    message_type := some "emotional" }

/-- C1 counterexample: with one completed turn of prior history, the
LangGraph therapist agent sends a two-message list, not the four-message
list (system instruction, prior history, new user turn) the claim requires
of every persona responder call. -/
theorem c1_counterexample :
    (Langgraph.therapist_agent lgExampleState "reply").sentMessages ≠
      Message.mk "system" therapistPrompt ::
        ([Message.mk "user" "hi", Message.mk "assistant" "hello"] ++
          [Message.mk "user" "I feel sad"]) := by
  intro h
  have hlen := congrArg List.length h
  simp [Langgraph.therapist_agent] at hlen

/-- C1 (amended): in the CrewAI flow each responder sends exactly one
persona system instruction, then the entire prior history in order, then the
new user turn; in the LangGraph implementation each agent sends only the
persona system instruction and the content of the latest message, omitting
all prior history. -/
theorem responder_message_construction :
    (∀ (st : Crewai.MessageState) (reply : String),
      (Crewai.therapist_response st reply).sentMessages =
        Message.mk "system" therapistPrompt ::
          (st.conversation_history ++ [Message.mk "user" st.user_message]) ∧
      (Crewai.logical_response st reply).sentMessages =
        Message.mk "system" logicalPrompt ::
          (st.conversation_history ++ [Message.mk "user" st.user_message])) ∧
    (∀ (st : Langgraph.State) (reply : String) (m : Message),
      st.messages.getLast? = some m →
      (Langgraph.therapist_agent st reply).sentMessages =
        [Message.mk "system" therapistPrompt, Message.mk "user" m.content] ∧
      (Langgraph.logical_agent st reply).sentMessages =
        [Message.mk "system" logicalPrompt, Message.mk "user" m.content]) := by
  constructor
  · intro st reply
    constructor <;> simp [Crewai.therapist_response, Crewai.logical_response]
  · intro st reply m h
    constructor <;>
      simp [Langgraph.therapist_agent, Langgraph.logical_agent, Langgraph.lastMessage, h]

/-- Closed instance of the amended C1 statement on a nonempty history. -/
theorem responder_message_construction_witness :
    (Langgraph.therapist_agent lgExampleState "reply").sentMessages =
      [Message.mk "system" therapistPrompt, Message.mk "user" "I feel sad"] :=
  (responder_message_construction.2 lgExampleState "reply"
    (Message.mk "user" "I feel sad") rfl).1

/-- Evaluation of one CrewAI loop iteration on an empty console input: the
sentinel test fails, classify_message short-circuits to exit without a model
call, handle_exit prints Bye and returns goodbye, and the loop breaks. -/
theorem crewai_loopStep_empty (st : Crewai.MessageState) (c : LLMResult) (r : String) :
    Crewai.loopStep st "" c r =
      { state := { st with user_message := "" }, ended := true,
        classifierCalled := false, printedBye := true } := by
  have hsent : Crewai.isExitInput "" = false := by decide
  simp [Crewai.loopStep, hsent, Crewai.kickoff, Crewai.classify_message,
    Crewai.route_message, Crewai.handle_exit]

theorem lg_graphInvoke_classifierCalled (st : Langgraph.State)
    (c : Langgraph.MessageClassifier) (r : String) :
    (Langgraph.graphInvoke st c r).classifierCalled = true := by
  unfold Langgraph.graphInvoke
  by_cases h : Langgraph.router (Langgraph.classify_message st c) = "therapist" <;>
    simp [h]

/-- C4 counterexample: in the LangGraph loop an empty user message is not a
termination signal: the classifier endpoint is still invoked and the session
continues instead of exiting. -/
theorem c4_counterexample :
    (Langgraph.loopStep Langgraph.initialState "" Langgraph.MessageClassifier.logical
      "r").classifierCalled = true ∧
    (Langgraph.loopStep Langgraph.initialState "" Langgraph.MessageClassifier.logical
      "r").ended = false := by
  constructor <;> rfl

/-- C4 (amended): in the CrewAI flow an empty user message makes the
classify step return exit without a model call, the router takes the exit
branch, and the loop iteration ends the session; in the LangGraph
implementation an empty user message is not special-cased, so the
classifier endpoint is invoked and the session continues. -/
theorem empty_message_handling :
    (∀ (st : Crewai.MessageState) (result : LLMResult), st.user_message = "" →
      (Crewai.classify_message st result).classifierCalled = false ∧
      Crewai.route_message (Crewai.classify_message st result).retVal = "exit") ∧
    (∀ (st : Crewai.MessageState) (result : LLMResult) (reply : String),
      (Crewai.loopStep st "" result reply).ended = true ∧
      (Crewai.loopStep st "" result reply).classifierCalled = false) ∧
    (∀ (st : Langgraph.State) (input : String) (c : Langgraph.MessageClassifier)
      (r : String), Langgraph.isExitInput input = false →
      (Langgraph.loopStep st input c r).classifierCalled = true ∧
      (Langgraph.loopStep st input c r).ended = false) := by
  refine ⟨?_, ?_, ?_⟩
  · intro st result h
    unfold Crewai.classify_message
    rw [if_pos h]
    exact ⟨rfl, rfl⟩
  · intro st result reply
    rw [crewai_loopStep_empty]
    exact ⟨rfl, rfl⟩
  · intro st input c r h
    simp [Langgraph.loopStep, h, lg_graphInvoke_classifierCalled]

/-- Closed instance of the amended C4 statement: empty input skips the
CrewAI classifier while an ordinary LangGraph input reaches its
classifier. -/
theorem empty_message_handling_witness :
    (Crewai.classify_message { user_message := "" } LLMResult.badText).classifierCalled
      = false ∧
    (Langgraph.loopStep Langgraph.initialState "hi" Langgraph.MessageClassifier.logical
      "r").classifierCalled = true :=
  ⟨(empty_message_handling.1 { user_message := "" } LLMResult.badText rfl).1,
   (empty_message_handling.2.2 Langgraph.initialState "hi"
      Langgraph.MessageClassifier.logical "r" (by decide)).1⟩

/-- C6: any console input that, after trimming surrounding whitespace and
lowercasing, equals exit breaks both session loops before the classifier is
invoked (no model call happens for that input). -/
theorem exit_sentinel_skips_classifier (input : String)
    (h : pyLower (pyStrip input.data) = "exit".data) :
    (∀ (st : Crewai.MessageState) (c : LLMResult) (r : String),
      (Crewai.loopStep st input c r).ended = true ∧
      (Crewai.loopStep st input c r).classifierCalled = false) ∧
    (∀ (st : Langgraph.State) (c : Langgraph.MessageClassifier) (r : String),
      (Langgraph.loopStep st input c r).ended = true ∧
      (Langgraph.loopStep st input c r).classifierCalled = false) := by
  have hlg : Langgraph.isExitInput input = true := by
    unfold Langgraph.isExitInput
    exact beq_iff_eq.mpr h
  have hcw : Crewai.isExitInput input = true := by
    unfold Crewai.isExitInput
    rw [← pyLower_pyStrip]
    exact beq_iff_eq.mpr h
  constructor
  · intro st c r
    unfold Crewai.loopStep
    rw [if_pos hcw]
    exact ⟨rfl, rfl⟩
  · intro st c r
    unfold Langgraph.loopStep
    rw [if_pos hlg]
    exact ⟨rfl, rfl⟩

/-- Closed instance of C6 at a padded upper-case sentinel. -/
theorem exit_sentinel_skips_classifier_witness :
    (Crewai.loopStep Crewai.initialState "  EXIT  " LLMResult.badText "r").classifierCalled
      = false :=
  ((exit_sentinel_skips_classifier "  EXIT  " (by decide)).1
    Crewai.initialState LLMResult.badText "r").2

/-- C7 counterexample: typing the exit sentinel at the CrewAI prompt ends
the session loop without any farewell being printed; the Bye of handle_exit
is only reached through the empty-message path. -/
theorem c7_counterexample :
    (Crewai.loopStep Crewai.initialState "exit" LLMResult.badText "r").ended = true ∧
    (Crewai.loopStep Crewai.initialState "exit" LLMResult.badText "r").printedBye
      = false := by
  constructor <;> rfl

/-- C7 (amended): the LangGraph loop prints Bye before ending on the exit
sentinel; the CrewAI flow prints Bye only on the empty-message exit path
(through handle_exit), while its sentinel path ends the loop silently. -/
theorem farewell_on_exit_paths :
    (∀ (st : Langgraph.State) (input : String) (c : Langgraph.MessageClassifier)
      (r : String), Langgraph.isExitInput input = true →
      (Langgraph.loopStep st input c r).ended = true ∧
      (Langgraph.loopStep st input c r).printedBye = true) ∧
    (∀ (st : Crewai.MessageState) (c : LLMResult) (r : String),
      (Crewai.loopStep st "" c r).ended = true ∧
      (Crewai.loopStep st "" c r).printedBye = true) ∧
    (∀ (st : Crewai.MessageState) (input : String) (c : LLMResult) (r : String),
      Crewai.isExitInput input = true →
      (Crewai.loopStep st input c r).ended = true ∧
      (Crewai.loopStep st input c r).printedBye = false) := by
  refine ⟨?_, ?_, ?_⟩
  · intro st input c r h
    unfold Langgraph.loopStep
    rw [if_pos h]
    exact ⟨rfl, rfl⟩
  · intro st c r
    rw [crewai_loopStep_empty]
    exact ⟨rfl, rfl⟩
  · intro st input c r h
    unfold Crewai.loopStep
    rw [if_pos h]
    exact ⟨rfl, rfl⟩

/-- Closed instance of the amended C7 statement at the literal sentinel. -/
theorem farewell_on_exit_paths_witness :
    (Langgraph.loopStep Langgraph.initialState "exit" Langgraph.MessageClassifier.logical
      "r").printedBye = true ∧
    (Crewai.loopStep Crewai.initialState "exit" LLMResult.badText "r").printedBye
      = false :=
  ⟨(farewell_on_exit_paths.1 Langgraph.initialState "exit"
      Langgraph.MessageClassifier.logical "r" (by decide)).2,
   (farewell_on_exit_paths.2.2 Crewai.initialState "exit" LLMResult.badText "r"
      (by decide)).2⟩

/-- C8 counterexample: the CrewAI classifier client is constructed with no
temperature and no token bound, and the LangGraph client hardcodes its model
identifier (ignoring the environment value) and passes max_tokens None. -/
theorem c8_counterexample :
    (Crewai.classifier_llm (some "gemini-pro")).temperature ≠ some 0 ∧
    (Crewai.classifier_llm (some "gemini-pro")).max_tokens = none ∧
    (Langgraph.llm (some "gemini-pro")).model ≠ some "gemini-pro" ∧
    (Langgraph.llm (some "gemini-pro")).max_tokens = none := by
  refine ⟨by decide, rfl, by decide, rfl⟩

/-- C8 (amended): the CrewAI responder client carries the environment model
identifier, temperature 0 and max_tokens 4096; the CrewAI classifier client
carries only the environment model identifier and a response format, with no
temperature and no token bound; the LangGraph client carries the hardcoded
identifier gemini-2.5-flash, temperature 0, no token bound, and a retry
count of 2. -/
theorem llm_client_configuration (MODEL : Option String) :
    (Crewai.gemini_llm MODEL).model = MODEL ∧
    (Crewai.gemini_llm MODEL).temperature = some 0 ∧
    (Crewai.gemini_llm MODEL).max_tokens = some 4096 ∧
    (Crewai.classifier_llm MODEL).model = MODEL ∧
    (Crewai.classifier_llm MODEL).temperature = none ∧
    (Crewai.classifier_llm MODEL).max_tokens = none ∧
    (Crewai.classifier_llm MODEL).response_format = true ∧
    (Langgraph.llm MODEL).model = some "gemini-2.5-flash" ∧
    (Langgraph.llm MODEL).temperature = some 0 ∧
    (Langgraph.llm MODEL).max_tokens = none ∧
    (Langgraph.llm MODEL).max_retries = some 2 :=
  ⟨rfl, rfl, rfl, rfl, rfl, rfl, rfl, rfl, rfl, rfl, rfl⟩

/-- Evaluation of one CrewAI kickoff on a nonempty user message: the
classifier is called, its label is stored, the router picks the therapist or
logical branch, and either responder extends the history with the same
user and assistant pair and returns the reply. -/
theorem crewai_kickoff_nonempty (st : Crewai.MessageState) (c : LLMResult)
    (reply : String) (h : st.user_message ≠ "") :
    Crewai.kickoff st c reply =
      { state :=
          { st with
            message_type := (parseResult c).getD "logical"
            conversation_history := st.conversation_history ++
              [Message.mk "user" st.user_message, Message.mk "assistant" reply]
            response := reply }
        result := reply
        classifierCalled := true
        printedBye := false } := by
  unfold Crewai.kickoff Crewai.classify_message
  rw [if_neg h]
  rcases parseResult_getD_mem c with hm | hm <;>
    simp [hm, Crewai.route_message, Crewai.therapist_response, Crewai.logical_response]

/-- Evaluation of one CrewAI loop iteration on an ordinary turn (input is
neither the sentinel nor empty, reply is not the literal goodbye): the loop
continues and the history grows by the user and assistant pair. -/
theorem crewai_loopStep_normal (st : Crewai.MessageState) (input : String)
    (c : LLMResult) (reply : String) (h1 : Crewai.isExitInput input = false)
    (h2 : input ≠ "") (h3 : reply ≠ "goodbye") :
    (Crewai.loopStep st input c reply).ended = false ∧
    (Crewai.loopStep st input c reply).state.conversation_history =
      st.conversation_history ++
        [Message.mk "user" input, Message.mk "assistant" reply] := by
  have hmt : (((parseResult c).getD "logical") == "exit") = false := by
    rcases parseResult_getD_mem c with hm | hm <;> rw [hm] <;> rfl
  have hr : (reply == "goodbye") = false := beq_eq_false_iff_ne.mpr h3
  unfold Crewai.loopStep
  rw [if_neg (by simp [h1])]
  have hk := crewai_kickoff_nonempty { st with user_message := input } c reply h2
  simp [hk, hmt, hr]

/-- Scripted run of the CrewAI loop: over any script of ordinary turns the
loop never breaks and the final history is the initial history followed by
the user and assistant pair of every turn in order. -/
theorem crewai_run_history (ts : List Crewai.TurnScript) :
    ∀ st : Crewai.MessageState,
      (∀ t ∈ ts, Crewai.isExitInput t.input = false ∧ t.input ≠ "" ∧
        t.reply ≠ "goodbye") →
      ∃ st', Crewai.run_chatbot st ts = some st' ∧
        st'.conversation_history = st.conversation_history ++
          ts.flatMap (fun t => [Message.mk "user" t.input,
            Message.mk "assistant" t.reply]) := by
  induction ts with
  | nil =>
    intro st _
    exact ⟨st, rfl, by simp⟩
  | cons t ts ih =>
    intro st h
    obtain ⟨h1, h2, h3⟩ := h t (List.mem_cons_self t ts)
    obtain ⟨he, hh⟩ := crewai_loopStep_normal st t.input t.clsResult t.reply h1 h2 h3
    obtain ⟨st', hrun, hhist⟩ :=
      ih (Crewai.loopStep st t.input t.clsResult t.reply).state
        (fun u hu => h u (List.mem_cons_of_mem t hu))
    refine ⟨st', ?_, ?_⟩
    · show Crewai.run_chatbot st (t :: ts) = some st'
      simp only [Crewai.run_chatbot, he]
      simpa using hrun
    · rw [hhist, hh]
      simp

theorem lg_classify_messages (st : Langgraph.State) (c : Langgraph.MessageClassifier) :
    (Langgraph.classify_message st c).messages = st.messages := rfl

theorem lg_graphInvoke_state_messages (st : Langgraph.State)
    (c : Langgraph.MessageClassifier) (r : String) :
    (Langgraph.graphInvoke st c r).state.messages =
      st.messages ++ [Message.mk "assistant" r] := by
  unfold Langgraph.graphInvoke
  by_cases hb : Langgraph.router (Langgraph.classify_message st c) = "therapist" <;>
    simp [hb, lg_classify_messages, Langgraph.therapist_agent, Langgraph.logical_agent]

/-- Evaluation of one LangGraph loop iteration on a non-sentinel input: the
loop continues and the message list grows by the user and assistant pair. -/
theorem lg_loopStep_normal (st : Langgraph.State) (input : String)
    (c : Langgraph.MessageClassifier) (reply : String)
    (h : Langgraph.isExitInput input = false) :
    (Langgraph.loopStep st input c reply).ended = false ∧
    (Langgraph.loopStep st input c reply).state.messages =
      st.messages ++ [Message.mk "user" input, Message.mk "assistant" reply] := by
  unfold Langgraph.loopStep
  rw [if_neg (by simp [h])]
  exact ⟨rfl, by simp [lg_graphInvoke_state_messages, lg_classify_messages]⟩

/-- Scripted run of the LangGraph loop: over any script of non-sentinel
turns the loop never breaks and the final message list is the initial one
followed by the user and assistant pair of every turn in order. -/
theorem lg_run_history (ts : List Langgraph.TurnScript) :
    ∀ st : Langgraph.State,
      (∀ t ∈ ts, Langgraph.isExitInput t.input = false) →
      ∃ st', Langgraph.run_chatbot st ts = some st' ∧
        st'.messages = st.messages ++
          ts.flatMap (fun t => [Message.mk "user" t.input,
            Message.mk "assistant" t.reply]) := by
  induction ts with
  | nil =>
    intro st _
    exact ⟨st, rfl, by simp⟩
  | cons t ts ih =>
    intro st h
    obtain ⟨he, hh⟩ := lg_loopStep_normal st t.input t.clsResult t.reply
      (h t (List.mem_cons_self t ts))
    obtain ⟨st', hrun, hhist⟩ :=
      ih (Langgraph.loopStep st t.input t.clsResult t.reply).state
        (fun u hu => h u (List.mem_cons_of_mem t hu))
    refine ⟨st', ?_, ?_⟩
    · show Langgraph.run_chatbot st (t :: ts) = some st'
      simp only [Langgraph.run_chatbot, he]
      simpa using hrun
    · rw [hhist, hh]
      simp

theorem flatMap_pair_length {α : Type} (f g : α → Message) (ts : List α) :
    (ts.flatMap (fun t => [f t, g t])).length = 2 * ts.length := by
  induction ts with
  | nil => rfl
  | cons t ts ih =>
    simp only [List.flatMap_cons, List.length_append, List.length_cons, ih]
    simp
    omega

/-- C5: starting from the initial state, after any script of N completed
turns each loop holds exactly 2N history entries, alternating a user entry
and an assistant entry per turn in chronological order, whose texts are
exactly the console input and the oracle reply of that turn; the pair is
appended atomically at the end of the turn by the responder. -/
theorem history_roundtrip :
    (∀ ts : List Crewai.TurnScript,
      (∀ t ∈ ts, Crewai.isExitInput t.input = false ∧ t.input ≠ "" ∧
        t.reply ≠ "goodbye") →
      ∃ st', Crewai.run_chatbot Crewai.initialState ts = some st' ∧
        st'.conversation_history =
          ts.flatMap (fun t => [Message.mk "user" t.input,
            Message.mk "assistant" t.reply]) ∧
        st'.conversation_history.length = 2 * ts.length) ∧
    (∀ ts : List Langgraph.TurnScript,
      (∀ t ∈ ts, Langgraph.isExitInput t.input = false) →
      ∃ st', Langgraph.run_chatbot Langgraph.initialState ts = some st' ∧
        st'.messages =
          ts.flatMap (fun t => [Message.mk "user" t.input,
            Message.mk "assistant" t.reply]) ∧
        st'.messages.length = 2 * ts.length) := by
  constructor
  · intro ts h
    obtain ⟨st', hrun, hhist⟩ := crewai_run_history ts Crewai.initialState h
    refine ⟨st', hrun, ?_, ?_⟩
    · simpa [Crewai.initialState] using hhist
    · rw [hhist]
      simpa [Crewai.initialState] using
        flatMap_pair_length (fun t => Message.mk "user" t.input)
          (fun t => Message.mk "assistant" t.reply) ts
  · intro ts h
    obtain ⟨st', hrun, hhist⟩ := lg_run_history ts Langgraph.initialState h
    refine ⟨st', hrun, ?_, ?_⟩
    · simpa [Langgraph.initialState] using hhist
    · rw [hhist]
      simpa [Langgraph.initialState] using
        flatMap_pair_length (fun t => Message.mk "user" t.input)
          (fun t => Message.mk "assistant" t.reply) ts

/-- Example two-turn script for the CrewAI loop: one emotional turn with a
validating classifier answer and one turn whose classifier answer fails to
parse. -/
def crewaiExampleScript : List Crewai.TurnScript :=
  [{ input := "I feel anxious about my exam",
     clsResult := LLMResult.dict [("message_type", JsonVal.str "emotional")],
     reply := "tell me more" },
   { input := "what is two plus two",
     clsResult := LLMResult.badText,
     reply := "four" }]

/-- Closed instance of C5 on a concrete two-turn script. -/
theorem history_roundtrip_witness :
    ∃ st', Crewai.run_chatbot Crewai.initialState crewaiExampleScript = some st' ∧
      st'.conversation_history =
        crewaiExampleScript.flatMap (fun t => [Message.mk "user" t.input,
          Message.mk "assistant" t.reply]) ∧
      st'.conversation_history.length = 2 * crewaiExampleScript.length :=
  history_roundtrip.1 crewaiExampleScript (by decide)
